import Mathlib

/-!
Shallow embedding of the GA4 news-analytics dashboard server
(`src/server/index.js`): the report-shaping layer of the realtime,
top-news, state-news and top-authors endpoints, the auth gate, and the
response cache, with theorems settling the specification's claims.
-/

namespace NewsAnalytics

/-! ### JavaScript primitive semantics -/

/-- Longest leading run of decimal digits of a character list
(JS `parseInt` stops at the first non-digit). -/
def leadingDigits : List Char → List Char
  | c :: cs => if c.isDigit then c :: leadingDigits cs else []
  | [] => []

/-- Decimal value of a digit list. -/
def digitsToNat (l : List Char) : Nat :=
  l.foldl (fun a c => a * 10 + (c.toNat - 48)) 0

/-- JS `parseInt(s)` (radix 10): skip leading whitespace, optional sign,
then the longest digit run; `none` models `NaN` (no digits found). -/
def jsParseInt (s : String) : Option Int :=
  match s.data.dropWhile Char.isWhitespace with
  | '-' :: rest =>
      let d := leadingDigits rest
      if d = [] then none else some (-(digitsToNat d : Int))
  | '+' :: rest =>
      let d := leadingDigits rest
      if d = [] then none else some (digitsToNat d : Int)
  | l =>
      let d := leadingDigits l
      if d = [] then none else some (digitsToNat d : Int)

/-- JS `String.prototype.trim()`: strip leading and trailing whitespace. -/
def jsTrim (s : String) : String :=
  ⟨((s.data.dropWhile Char.isWhitespace).reverse.dropWhile
      Char.isWhitespace).reverse⟩

/-- JS `String.prototype.toLowerCase()` (ASCII range, as used here). -/
def jsToLower (s : String) : String :=
  ⟨s.data.map Char.toLower⟩

/-- JS `String.prototype.padStart(n, '0')`. -/
def padStartZeros (n : Nat) (s : String) : String :=
  if n ≤ s.length then s else ⟨List.replicate (n - s.length) '0' ++ s.data⟩

/-- `needle` occurs as a contiguous substring of `hay`
(JS `String.prototype.includes` / GA4 `CONTAINS` match type). -/
def strContains (hay needle : String) : Prop :=
  needle.data <:+: hay.data

instance (hay needle : String) : Decidable (strContains hay needle) := by
  unfold strContains; infer_instance

/-- `s` starts with `pre` (JS `String.prototype.startsWith`). -/
def strStartsWith (s pre : String) : Prop :=
  s.data.take pre.length = pre.data

instance (s pre : String) : Decidable (strStartsWith s pre) := by
  unfold strStartsWith; infer_instance

/-- JS `Math.round(p / q)` for integer `p` and positive integer `q`:
`floor(p/q + 1/2)`. -/
def jsRoundDiv (p : Int) (q : Nat) : Int :=
  Int.fdiv (2 * p + q) (2 * q)

/-! ### GA4 report rows -/

/-- One raw GA4 report row: positional dimension and metric value strings
(`row.dimensionValues[i].value`, `row.metricValues[i].value`). -/
structure GARow where
  dimensionValues : List String
  metricValues : List String
deriving DecidableEq

/-- `row.metricValues[i].value || 0` as fed to `parseInt`: a missing or
empty value string becomes `"0"`. -/
def metricOrZero (r : GARow) (i : Nat) : String :=
  let s := r.metricValues.getD i ""
  if s = "" then "0" else s

/-- First dimension value of a row (`row.dimensionValues[0].value`). -/
def dim0 (r : GARow) : String :=
  r.dimensionValues.headD ""

/-! ### Realtime summary shaper (`/api/realtime`) -/

/-- One step of the sparkline fold (`src/server/index.js:112-115`):
parse `minutesAgo` from the row's first dimension value and, when it lies
in `[0, 30)`, write the parsed `activeUsers` metric at index `29 - minAgo`.
Array entries are `Option Int`, `none` standing for JS `NaN`. -/
def sparkStep (acc : List (Option Int)) (row : GARow) : List (Option Int) :=
  match jsParseInt (dim0 row) with
  | none => acc
  | some minAgo =>
      if 0 ≤ minAgo ∧ minAgo < 30 then
        acc.set (29 - minAgo).toNat (jsParseInt (metricOrZero row 0))
      else acc

/-- The 30-point sparkline (`src/server/index.js:111-115`):
`Array(30).fill(0)` then one `sparkStep` per realtime row. -/
def sparkline (rows : List GARow) : List (Option Int) :=
  rows.foldl sparkStep (List.replicate 30 (some 0))

/-- Row `r` writes sparkline slot `29 - m`: its `minutesAgo` parses to `m`
with `0 ≤ m < 30`. -/
def writesTo (r : GARow) (m : Int) : Prop :=
  jsParseInt (dim0 r) = some m ∧ 0 ≤ m ∧ m < 30

instance (r : GARow) (m : Int) : Decidable (writesTo r m) := by
  unfold writesTo; infer_instance

/-- The sparkline slot a row addresses, if any: `some m` when its
`minutesAgo` parses to `m ∈ [0, 30)` (the row then writes index `29 - m`),
`none` when the row is ignored. -/
def rowSlot (r : GARow) : Option Int :=
  match jsParseInt (dim0 r) with
  | some m => if 0 ≤ m ∧ m < 30 then some m else none
  | none => none

/-- No two of the rows address the same sparkline slot (GA4 emits one row
per `minutesAgo` bucket). -/
def noSharedSlot (r1 r2 : GARow) : Prop :=
  ∀ m, ¬(writesTo r1 m ∧ writesTo r2 m)

instance (r : GARow) (m : Int) : Decidable (rowSlot r = some m) := by
  infer_instance

instance (r1 r2 : GARow) : Decidable (noSharedSlot r1 r2) :=
  decidable_of_iff (rowSlot r1 = none ∨ rowSlot r1 ≠ rowSlot r2) (by
    have hiff : ∀ (r : GARow) (m : Int), writesTo r m ↔ rowSlot r = some m := by
      intro r m
      unfold writesTo rowSlot
      cases jsParseInt (dim0 r) with
      | none => simp
      | some v =>
          by_cases hv : 0 ≤ v ∧ v < 30 <;>
            simp [hv] <;> intro h <;> omega
    constructor
    · rintro (h | h) m ⟨w1, w2⟩
      · rw [hiff] at w1; simp [w1] at h
      · rw [hiff] at w1 w2; rw [w1, w2] at h; exact h rfl
    · intro h
      by_cases h1 : rowSlot r1 = none
      · exact Or.inl h1
      · refine Or.inr fun he => ?_
        rcases Option.ne_none_iff_exists'.mp h1 with ⟨m, hm⟩
        exact h m ⟨(hiff r1 m).mpr hm, (hiff r2 m).mpr (he ▸ hm)⟩)

/-- The `minutesAgo == 0` bucket lookup (`src/server/index.js:118`):
`rows.find(r => r.dimensionValues[0].value === '0')`. -/
def lastMinRow (rows : List GARow) : Option GARow :=
  rows.find? (fun r => dim0 r == "0")

/-- `parseInt(lastMinRow?.metricValues?.[0]?.value || 0)`
(`src/server/index.js:119`); an absent bucket yields `parseInt(0) = 0`,
`none` models `NaN`. -/
def pvPerMin (rows : List GARow) : Option Int :=
  match lastMinRow rows with
  | none => some 0
  | some r => jsParseInt (metricOrZero r 0)

/-- `Math.max(now.getHours() * 60 + now.getMinutes(), 1)`
(`src/server/index.js:124`). -/
def minutesElapsed (hours minutes : Nat) : Nat :=
  max (hours * 60 + minutes) 1

/-- `pvPerMin || Math.round(totalPv / mins)` (`src/server/index.js:131`):
JS `||` takes the fallback when `pvPerMin` is falsy, i.e. `0` or `NaN`.
`totalPv` is the parsed `screenPageViews` total (`none` = `NaN`). -/
def pageviewsPerMinField (rows : List GARow) (totalPv : Option Int)
    (mins : Nat) : Option Int :=
  match pvPerMin rows with
  | some v => if v ≠ 0 then some v else totalPv.map (fun p => jsRoundDiv p mins)
  | none => totalPv.map (fun p => jsRoundDiv p mins)

/-- `${Math.floor(dur / 60)}:${(dur % 60).toString().padStart(2, '0')}`
(`src/server/index.js:130`); JS `/` floors via `Math.floor`, `%` is the
truncated remainder. -/
def formatDuration (dur : Int) : String :=
  toString (Int.fdiv dur 60) ++ ":" ++ padStartZeros 2 (toString (Int.tmod dur 60))

/-- `stats.data.rows?.[0]?.metricValues || []` followed by
`[i]?.value || 0` (`src/server/index.js:121-125`). -/
def reportMetric (rows : List GARow) (i : Nat) : String :=
  match rows.head? with
  | some r => metricOrZero r i
  | none => "0"

/-- The realtime summary payload (`src/server/index.js:127-134`).
`Option Int` fields use `none` for JS `NaN`; `bounceRateRaw` carries the
raw metric string — its `parseFloat(...).toFixed(1) + '%'` float
formatting is outside this integer embedding. -/
structure RealtimePayload where
  activeUsers : Option Int
  bounceRateRaw : String
  avgDuration : String
  pageviewsPerMin : Option Int
  newPerMin : Option Int
  sparkline : List (Option Int)
deriving DecidableEq

/-- Shape the realtime response from the four query results
(`src/server/index.js:107-134`), given the request time as
hour/minute of day. -/
def shapeRealtime (rtTotal rtMinutes todayStats monthStats : List GARow)
    (hours minutes : Nat) : RealtimePayload :=
  let mins := minutesElapsed hours minutes
  let durParsed := jsParseInt (reportMetric monthStats 1)
  { activeUsers := jsParseInt (reportMetric rtTotal 0)
    bounceRateRaw := reportMetric monthStats 0
    avgDuration := match durParsed with
      | some dur => formatDuration dur
      | none => "NaN:NaN"
    pageviewsPerMin :=
      pageviewsPerMinField rtMinutes (jsParseInt (reportMetric todayStats 1)) mins
    newPerMin :=
      (jsParseInt (reportMetric todayStats 0)).map (fun p => jsRoundDiv p mins)
    sparkline := sparkline rtMinutes }

/-- `Promise.all` over the four realtime queries
(`src/server/index.js:75-105`): the joint await succeeds only when every
query succeeds, and otherwise rejects with a failing query's message. -/
def joinAll4 (q1 q2 q3 q4 : Except String (List GARow)) :
    Except String (List GARow × List GARow × List GARow × List GARow) :=
  match q1, q2, q3, q4 with
  | .ok r1, .ok r2, .ok r3, .ok r4 => .ok (r1, r2, r3, r4)
  | .error e, _, _, _ => .error e
  | _, .error e, _, _ => .error e
  | _, _, .error e, _ => .error e
  | _, _, _, .error e => .error e

/-- The `/api/realtime` handler body on a cache miss
(`src/server/index.js:75-137`): await all four queries jointly, shape the
payload, or map any rejection to HTTP 500 with the upstream message via
the `catch`. -/
def realtimeHandler (q1 q2 q3 q4 : Except String (List GARow))
    (hours minutes : Nat) : Except (Nat × String) RealtimePayload :=
  match joinAll4 q1 q2 q3 q4 with
  | .error e => .error (500, e)
  | .ok (r1, r2, r3, r4) => .ok (shapeRealtime r1 r2 r3 r4 hours minutes)

/-! ### Auth gate (`requireAuth`, `src/server/index.js:42`) -/

/-- Result of an `/api/*` endpoint paired with whether any upstream
Report Client call was issued while producing it. -/
abbrev GuardedResult (α : Type) := Except (Nat × String) α × Bool

/-- `req.isAuthenticated() ? next() : res.status(401).json({error:
'Not authenticated'})` (`src/server/index.js:42`): only an authenticated
request reaches the endpoint handler. -/
def requireAuth {α : Type} (isAuthenticated : Bool)
    (handler : Unit → GuardedResult α) : GuardedResult α :=
  if isAuthenticated then handler ()
  else (.error (401, "Not authenticated"), false)

/-! ### Top authors (`/api/top-authors`, `src/server/index.js:207-263`) -/

/-- The placeholder filter of `tryDimension` (`src/server/index.js:225-228`):
keep `n` iff `n && n !== '(not set)' && n !== '(not provided)' &&
n.trim() !== ''`. -/
def authorKeep (r : GARow) : Bool :=
  let n := dim0 r
  n != "" && n != "(not set)" && n != "(not provided)" && jsTrim n != ""

/-- One shaped top-authors entry (`src/server/index.js:230-235`). -/
structure AuthorEntry where
  rank : Nat
  name : String
  views : Option Int
  articles : Option Int
deriving DecidableEq

/-- Row shaping of `tryDimension` (`src/server/index.js:224-235`): filter
placeholders, `slice(0, 6)`, then rank 1-based. -/
def shapeAuthors (rows : List GARow) : List AuthorEntry :=
  ((rows.filter authorKeep).take 6).enum.map fun p =>
    { rank := p.1 + 1
      name := dim0 p.2
      views := jsParseInt (p.2.metricValues.getD 0 "")
      articles := jsParseInt (p.2.metricValues.getD 1 "") }

/-- `try { rows = await tryDimension(dim) } catch (_) { rows = [] }`
(`src/server/index.js:257`): a failing candidate query contributes no
rows. `fetch` maps a candidate dimension name to its query outcome. -/
def candidateRows (fetch : String → Except String (List GARow))
    (d : String) : List AuthorEntry :=
  match fetch d with
  | .ok rs => shapeAuthors rs
  | .error _ => []

/-- The `for (const dim of dimsToTry)` loop (`src/server/index.js:256-259`):
stop at the first candidate yielding rows; `[]` if none does. -/
def topAuthorsLoop (fetch : String → Except String (List GARow)) :
    List String → List AuthorEntry
  | [] => []
  | d :: ds =>
      let rows := candidateRows fetch d
      if rows.isEmpty then topAuthorsLoop fetch ds else rows

/-- The `/api/top-authors` handler body (`src/server/index.js:256-261`):
the loop result is always serialized as a success response. -/
def topAuthorsEndpoint (fetch : String → Except String (List GARow))
    (dims : List String) : Except (Nat × String) (List AuthorEntry) :=
  .ok (topAuthorsLoop fetch dims)

/-! ### Author-dimension discovery (`src/server/index.js:240-254`) -/

/-- GA4 custom-dimension metadata entry (`meta.data.dimensions`). -/
structure DimMeta where
  apiName : String
  uiName : Option String
  description : Option String
deriving DecidableEq

/-- `dims.filter(d => d.apiName && d.apiName.startsWith('custom'))`
(`src/server/index.js:242`). -/
def customDims (dims : List DimMeta) : List DimMeta :=
  dims.filter fun d => decide (strStartsWith d.apiName "custom")

/-- `(d.apiName + ' ' + (d.uiName || '') + ' ' + (d.description ||
'')).toLowerCase()` (`src/server/index.js:245`). -/
def dimSearchText (d : DimMeta) : String :=
  jsToLower (d.apiName ++ " " ++ d.uiName.getD "" ++ " " ++ d.description.getD "")

/-- The keyword scan (`src/server/index.js:246`): the lowered search text
includes `author`, `writer` or `byline`. -/
def isAuthorDim (d : DimMeta) : Bool :=
  decide (strContains (dimSearchText d) "author")
    || decide (strContains (dimSearchText d) "writer")
    || decide (strContains (dimSearchText d) "byline")

/-- Metadata discovery (`src/server/index.js:242-248`): first custom
dimension whose search text matches a keyword. -/
def discoverAuthorDim (dims : List DimMeta) : Option String :=
  ((customDims dims).find? isAuthorDim).map DimMeta.apiName

/-- The hardcoded guess list (`src/server/index.js:254`). -/
def FALLBACK_DIMS : List String :=
  ["customUser:author", "customEvent:author", "customUser:Author",
   "customEvent:Author", "customUser:writer", "customEvent:writer"]

/-- `dimsToTry` (`src/server/index.js:252-254`): the discovered dimension
alone when found, otherwise the guesses. -/
def dimsToTry (dims : List DimMeta) : List String :=
  match discoverAuthorDim dims with
  | some d => [d]
  | none => FALLBACK_DIMS

/-- `dimsToTry` including the `try/catch` around the metadata fetch
(`src/server/index.js:240-254`): a failed fetch falls back to the guesses. -/
def dimsToTryE (meta : Except String (List DimMeta)) : List String :=
  match meta with
  | .ok dims => dimsToTry dims
  | .error _ => FALLBACK_DIMS

/-! ### State news (`/api/state-news/:state`, `src/server/index.js:166-203`) -/

/-- `STATE_PATH_MAP` (`src/server/index.js:166-170`). -/
def STATE_PATH_MAP (state : String) : Option (List String) :=
  if state = "mp" then some ["/mp/", "/state/madhya-pradesh/"]
  else if state = "cg" then some ["/cg/", "/state/chhattisgarh/"]
  else if state = "rj" then some ["/rj/", "/state/rajasthan/"]
  else none

/-- `STATE_PATH_MAP[state] || ['/${state}/']` (`src/server/index.js:176`). -/
def statePaths (state : String) : List String :=
  (STATE_PATH_MAP state).getD ["/" ++ state ++ "/"]

/-- A metric ordering of a report request (`orderBys`). -/
structure OrderBy where
  metricName : String
  desc : Bool
deriving DecidableEq

/-- The report request descriptor built by the state-news handler
(`src/server/index.js:177-192`); `filterPaths` are the OR-combined
`CONTAINS` string filters on `pagePath`. -/
structure StateNewsRequest where
  dateRangeStart : String
  dateRangeEnd : String
  metrics : List String
  dimensions : List String
  filterPaths : List String
  orderBys : List OrderBy
  limit : Nat
deriving DecidableEq

/-- The request the state-news handler issues for a (lowercased) state
code (`src/server/index.js:176-192`). -/
def stateNewsRequest (state : String) : StateNewsRequest :=
  { dateRangeStart := "7daysAgo"
    dateRangeEnd := "today"
    metrics := ["screenPageViews"]
    dimensions := ["pageTitle", "pagePath"]
    filterPaths := statePaths state
    orderBys := [⟨"screenPageViews", true⟩]
    limit := 5 }

/-- Modelled from the spec: GA4's evaluation of the `orGroup` of
`CONTAINS` filters on `pagePath` — the GA4 Data API itself is external to
the repository — "filters rows whose path contains any of a small set of
known path prefixes ... both checked via OR-combined substring filters". -/
def matchesStateFilter (state path : String) : Prop :=
  ∃ p ∈ (stateNewsRequest state).filterPaths, strContains path p

instance (state path : String) : Decidable (matchesStateFilter state path) := by
  unfold matchesStateFilter; infer_instance

/-! ### Response cache (`node-cache` usage, `src/server/index.js:66-135`) -/

/-- Modelled from the spec: the `node-cache` store backing the Response
Cache — the library is external to the repository — "CacheEntry: {key,
value, expiresAt}. Invariant: a read after expiry is a miss, not a stale
hit." Keys map to a value and its absolute expiry time. -/
structure CacheState (α : Type) where
  entries : List (String × α × Nat)
deriving DecidableEq

/-- Modelled from the spec: `set(key, value, ttlSeconds)` stores the
value with `expiresAt = now + ttl`, replacing any entry for the key. -/
def cacheSet {α : Type} (c : CacheState α) (k : String) (v : α)
    (now ttl : Nat) : CacheState α :=
  ⟨(k, v, now + ttl) :: c.entries.filter (fun e => e.1 != k)⟩

/-- Modelled from the spec: `get(key) -> value | miss` — a hit only
while `now` is strictly before the entry's expiry, so a value is never
returned past its TTL. -/
def cacheGet {α : Type} (c : CacheState α) (k : String) (now : Nat) :
    Option α :=
  match c.entries.find? (fun e => e.1 == k) with
  | some e => if now < e.2.2 then some e.2.1 else none
  | none => none

/-- The cache-check pattern of every `/api/*` handler
(`src/server/index.js:68-69` and `135`): serve the cached value on a hit;
on a miss invoke the Report Client, cache its result for `ttl` seconds and
serve it. The returned flag records whether the client was invoked. -/
def cachedFetch {α : Type} (c : CacheState α) (k : String) (now ttl : Nat)
    (client : Unit → α) : α × CacheState α × Bool :=
  match cacheGet c k now with
  | some v => (v, c, false)
  | none =>
      let v := client ()
      (v, cacheSet c k v now ttl, true)

/-! ### Sparkline lemmas -/

theorem sparkStep_length (acc : List (Option Int)) (r : GARow) :
    (sparkStep acc r).length = acc.length := by
  unfold sparkStep
  split
  · rfl
  · split <;> simp [List.length_set]

theorem foldl_sparkStep_length (rows : List GARow) :
    ∀ acc, (rows.foldl sparkStep acc).length = acc.length := by
  induction rows with
  | nil => intro acc; rfl
  | cons r rows ih => intro acc; rw [List.foldl_cons, ih, sparkStep_length]

theorem sparkline_length (rows : List GARow) : (sparkline rows).length = 30 := by
  unfold sparkline
  rw [foldl_sparkStep_length]
  simp

theorem sparkStep_of_not_writes {acc : List (Option Int)} {r : GARow}
    (h : ∀ m, ¬ writesTo r m) : sparkStep acc r = acc := by
  unfold sparkStep
  cases hp : jsParseInt (dim0 r) with
  | none => rfl
  | some m => exact if_neg fun hr => h m ⟨hp, hr⟩

theorem sparkStep_of_writes {acc : List (Option Int)} {r : GARow} {m : Int}
    (h : writesTo r m) :
    sparkStep acc r = acc.set (29 - m).toNat (jsParseInt (metricOrZero r 0)) := by
  unfold sparkStep
  rw [h.1]
  exact if_pos h.2

theorem foldl_spark_no_write (rows : List GARow) :
    ∀ (acc : List (Option Int)) (i : Nat),
      (∀ r ∈ rows, ∀ m : Int, writesTo r m → (29 - m).toNat ≠ i) →
      (rows.foldl sparkStep acc)[i]? = acc[i]? := by
  induction rows with
  | nil => intro acc i _; rfl
  | cons a rows ih =>
      intro acc i h
      rw [List.foldl_cons, ih _ i (fun r hr => h r (List.mem_cons_of_mem _ hr))]
      by_cases hw : ∃ m, writesTo a m
      · rcases hw with ⟨m, hm⟩
        rw [sparkStep_of_writes hm,
          List.getElem?_set_ne (h a (List.mem_cons_self a rows) m hm)]
      · push_neg at hw
        rw [sparkStep_of_not_writes hw]

theorem foldl_spark_write (rows : List GARow) :
    ∀ (acc : List (Option Int)) (r : GARow) (m : Int), acc.length = 30 →
      rows.Pairwise noSharedSlot → r ∈ rows → writesTo r m →
      (rows.foldl sparkStep acc)[(29 - m).toNat]?
        = some (jsParseInt (metricOrZero r 0)) := by
  induction rows with
  | nil => intro acc r m _ _ h _; cases h
  | cons a rows ih =>
      intro acc r m hlen hpw hmem hw
      rw [List.pairwise_cons] at hpw
      rw [List.foldl_cons]
      rcases List.mem_cons.mp hmem with rfl | hr
      · rw [sparkStep_of_writes hw]
        rw [foldl_spark_no_write rows _ _ ?_]
        · exact List.getElem?_set_eq_of_lt _
            (by rw [hlen]; have := hw.2.2; have := hw.2.1; omega)
        · intro r' hr' m' hw' heq
          have hb := hw.2
          have hb' := hw'.2
          have hm' : m' = m := by omega
          subst hm'
          exact hpw.1 r' hr' m' ⟨hw, hw'⟩
      · exact ih (sparkStep acc a) r m
          (by rw [sparkStep_length]; exact hlen) hpw.2 hr hw

/-- C1: the realtime sparkline reverses the raw `minutesAgo` order — for
rows addressing pairwise-distinct `minutesAgo` buckets, the output has
length 30, a row with `minutesAgo = m ∈ [0, 30)` contributes its parsed
`activeUsers` at index `29 - m`, every index no row addresses holds 0,
and on the rows `{minutesAgo: 5, activeUsers: 3}`,
`{minutesAgo: 0, activeUsers: 7}` the result is 7 at index 29, 3 at
index 24, and 0 elsewhere. -/
theorem C1_sparkline_reverses_minutesAgo :
    (∀ rows : List GARow, rows.Pairwise noSharedSlot →
      (sparkline rows).length = 30
      ∧ (∀ r ∈ rows, ∀ m : Int, writesTo r m →
          (sparkline rows)[(29 - m).toNat]? = some (jsParseInt (metricOrZero r 0)))
      ∧ (∀ i : Nat, i < 30 →
          (∀ r ∈ rows, ∀ m : Int, writesTo r m → (29 - m).toNat ≠ i) →
          (sparkline rows)[i]? = some (some 0)))
    ∧ sparkline [⟨["5"], ["3"]⟩, ⟨["0"], ["7"]⟩]
        = ((List.replicate 30 (some 0)).set 24 (some 3)).set 29 (some 7) := by
  constructor
  · intro rows hpw
    refine ⟨sparkline_length rows, ?_, ?_⟩
    · intro r hr m hw
      exact foldl_spark_write rows _ r m (by simp) hpw hr hw
    · intro i hi h
      unfold sparkline
      rw [foldl_spark_no_write rows _ i h, List.getElem?_replicate, if_pos hi]
  · decide

/-- Witness for C1 at the spec's concrete rows. -/
theorem C1_sparkline_reverses_minutesAgo_witness :
    ([⟨["5"], ["3"]⟩, ⟨["0"], ["7"]⟩] : List GARow).Pairwise noSharedSlot
    ∧ (sparkline [⟨["5"], ["3"]⟩, ⟨["0"], ["7"]⟩])[(29 - (0 : Int)).toNat]?
        = some (some 7)
    ∧ (sparkline [⟨["5"], ["3"]⟩, ⟨["0"], ["7"]⟩])[(29 - (5 : Int)).toNat]?
        = some (some 3)
    ∧ (sparkline [⟨["5"], ["3"]⟩, ⟨["0"], ["7"]⟩])[0]? = some (some 0) := by
  have hpw : ([⟨["5"], ["3"]⟩, ⟨["0"], ["7"]⟩] : List GARow).Pairwise noSharedSlot := by
    decide
  have hmain := (C1_sparkline_reverses_minutesAgo.1 _ hpw)
  refine ⟨hpw, ?_, ?_, ?_⟩
  · have h := hmain.2.1 ⟨["0"], ["7"]⟩ (by decide) 0 (by decide)
    rw [h]; decide
  · have h := hmain.2.1 ⟨["5"], ["3"]⟩ (by decide) 5 (by decide)
    rw [h]; decide
  · refine hmain.2.2 0 (by decide) ?_
    intro r hr m hw
    rcases List.mem_cons.mp hr with rfl | hr2
    · have h5 : jsParseInt (dim0 (⟨["5"], ["3"]⟩ : GARow)) = some 5 := by decide
      have hm : m = 5 := by
        have := hw.1.symm.trans h5
        exact (Option.some.inj this)
      subst hm
      decide
    · rcases List.mem_cons.mp hr2 with rfl | hr3
      · have h0 : jsParseInt (dim0 (⟨["0"], ["7"]⟩ : GARow)) = some 0 := by decide
        have hm : m = 0 := by
          have := hw.1.symm.trans h0
          exact (Option.some.inj this)
        subst hm
        decide
      · cases hr3

/-- C10: the sparkline always has length exactly 30, rows whose
`minutesAgo` fails to parse or parses outside `[0, 30)` cause no array
write, and when a write does occur its index is strictly below 30 — no
out-of-bounds write is ever attempted. -/
theorem C10_sparkline_in_bounds :
    (∀ rows : List GARow, (sparkline rows).length = 30)
    ∧ (∀ (acc : List (Option Int)) (r : GARow),
        jsParseInt (dim0 r) = none → sparkStep acc r = acc)
    ∧ (∀ (acc : List (Option Int)) (r : GARow) (m : Int),
        jsParseInt (dim0 r) = some m → (m < 0 ∨ 30 ≤ m) → sparkStep acc r = acc)
    ∧ (∀ (acc : List (Option Int)) (r : GARow) (m : Int), writesTo r m →
        (29 - m).toNat < 30
        ∧ sparkStep acc r = acc.set (29 - m).toNat (jsParseInt (metricOrZero r 0))) := by
  refine ⟨fun rows => sparkline_length rows, ?_, ?_, ?_⟩
  · intro acc r h
    unfold sparkStep
    rw [h]
  · intro acc r m h hout
    unfold sparkStep
    rw [h]
    exact if_neg (by omega)
  · intro acc r m hw
    refine ⟨?_, sparkStep_of_writes hw⟩
    have := hw.2.1
    have := hw.2.2
    omega

/-- Witness for C10 at rows with an unparseable, an out-of-range and a
negative `minutesAgo`, plus one valid bucket. -/
theorem C10_sparkline_in_bounds_witness :
    (sparkline [⟨["abc"], ["3"]⟩, ⟨["35"], ["4"]⟩, ⟨["-1"], ["5"]⟩]).length = 30
    ∧ sparkStep (List.replicate 30 (some 0)) ⟨["abc"], ["3"]⟩
        = List.replicate 30 (some 0)
    ∧ sparkStep (List.replicate 30 (some 0)) ⟨["35"], ["4"]⟩
        = List.replicate 30 (some 0)
    ∧ sparkStep (List.replicate 30 (some 0)) ⟨["-1"], ["5"]⟩
        = List.replicate 30 (some 0)
    ∧ (29 - (0 : Int)).toNat < 30 :=
  ⟨C10_sparkline_in_bounds.1 _,
   C10_sparkline_in_bounds.2.1 _ _ (by decide),
   C10_sparkline_in_bounds.2.2.1 _ _ 35 (by decide) (Or.inr (by norm_num)),
   C10_sparkline_in_bounds.2.2.1 _ _ (-1) (by decide) (Or.inl (by norm_num)),
   (C10_sparkline_in_bounds.2.2.2 (List.replicate 30 (some 0)) ⟨["0"], ["7"]⟩ 0
     (by decide)).1⟩

/-! ### Duration formatting -/

theorem formatDuration_natCast (n : Nat) :
    formatDuration (n : Int)
      = toString (n / 60) ++ ":" ++ padStartZeros 2 (toString (n % 60)) := by
  unfold formatDuration
  have h1 : Int.fdiv (n : Int) (60 : Int) = ((n / 60 : Nat) : Int) := by
    cases n <;> rfl
  have h2 : Int.tmod (n : Int) (60 : Int) = ((n % 60 : Nat) : Int) := rfl
  rw [h1, h2]
  rfl

theorem padStartZeros_two_digits (s : Nat) (h : s < 60) :
    padStartZeros 2 (toString s)
      = if s < 10 then "0" ++ toString s else toString s := by
  interval_cases s <;> decide

/-- C9: average session duration formats as minutes:seconds with the
seconds zero-padded to two digits — for every non-negative duration `d`,
the output is `floor(d/60)`, a colon, then the two-digit remainder; in
particular 125 seconds formats as `"2:05"`. -/
theorem C9_avg_duration_format :
    (∀ d : Nat, formatDuration (d : Int)
        = toString (d / 60) ++ ":"
          ++ (if d % 60 < 10 then "0" ++ toString (d % 60) else toString (d % 60)))
    ∧ formatDuration (125 : Int) = "2:05" := by
  constructor
  · intro d
    rw [formatDuration_natCast d,
      padStartZeros_two_digits (d % 60) (Nat.mod_lt _ (by norm_num))]
  · decide

/-! ### State-news filtering -/

/-- C7: for state code `mp` the state-news request filters exactly the
pages whose path contains `/mp/` or `/state/madhya-pradesh/`, ordered by
pageviews descending with limit 5; `/state/madhya-pradesh/foo` matches
and `/cg/foo` does not. -/
theorem C7_state_news_filter :
    (∀ path : String, matchesStateFilter "mp" path ↔
      (strContains path "/mp/" ∨ strContains path "/state/madhya-pradesh/"))
    ∧ matchesStateFilter "mp" "/state/madhya-pradesh/foo"
    ∧ ¬ matchesStateFilter "mp" "/cg/foo"
    ∧ (stateNewsRequest "mp").filterPaths = ["/mp/", "/state/madhya-pradesh/"]
    ∧ (stateNewsRequest "mp").orderBys = [⟨"screenPageViews", true⟩]
    ∧ (stateNewsRequest "mp").limit = 5 := by
  refine ⟨?_, by decide, by decide, by decide, by decide, by decide⟩
  intro path
  unfold matchesStateFilter
  simp [stateNewsRequest, statePaths, STATE_PATH_MAP]

/-- Witness for C7: a path with the legacy `/mp/` segment matches. -/
theorem C7_state_news_filter_witness :
    matchesStateFilter "mp" "/x/mp/y" :=
  (C7_state_news_filter.1 "/x/mp/y").mpr (Or.inl (by decide))

/-! ### Auth gate -/

/-- C6: an unauthenticated request to a guarded `/api/*` endpoint gets
HTTP 401 with `{error: "Not authenticated"}` and the handler — hence any
upstream Report Client call — never runs; an authenticated request runs
the handler unchanged. -/
theorem C6_unauthenticated_401 :
    ∀ (α : Type) (handler : Unit → GuardedResult α),
      requireAuth false handler = (.error (401, "Not authenticated"), false)
      ∧ requireAuth true handler = handler () :=
  fun _ _ => ⟨rfl, rfl⟩

/-! ### Pageviews per minute -/

/-- Counterexample to C2 as stated: with the `minutesAgo = 0` bucket
present but holding activeUsers `0`, total pageviews 120 at minute 60,
the code still takes the fallback (JS `||` treats the bucket's `0` as
falsy) and returns 2 instead of the bucket's 0. -/
theorem C2_counterexample :
    lastMinRow [⟨["0"], ["0"]⟩] = some ⟨["0"], ["0"]⟩
    ∧ pvPerMin [⟨["0"], ["0"]⟩] = some 0
    ∧ pageviewsPerMinField [⟨["0"], ["0"]⟩] (some 120) (minutesElapsed 1 0) = some 2
    ∧ (2 : Int) ≠ 0 := by
  refine ⟨by decide, by decide, by decide, by decide⟩

/-- C2 (amended): pageviews-per-minute uses the realtime `minutesAgo = 0`
bucket when its parsed value is nonzero, and falls back to
`round(totalPageviewsToday / minutesElapsedToday)` when the bucket is
absent, zero or unparseable; the divisor is floored to at least 1; with
the bucket absent and 120 pageviews at minute-of-day 60 the value is 2. -/
theorem C2_pageviews_per_min :
    (∀ (rows : List GARow) (totalPv : Int) (h mnt : Nat),
      1 ≤ minutesElapsed h mnt
      ∧ (∀ v : Int, pvPerMin rows = some v → v ≠ 0 →
          pageviewsPerMinField rows (some totalPv) (minutesElapsed h mnt) = some v)
      ∧ ((pvPerMin rows = some 0 ∨ pvPerMin rows = none) →
          pageviewsPerMinField rows (some totalPv) (minutesElapsed h mnt)
            = some (jsRoundDiv totalPv (minutesElapsed h mnt)))
      ∧ (lastMinRow rows = none → pvPerMin rows = some 0))
    ∧ pageviewsPerMinField [] (some 120) (minutesElapsed 1 0) = some 2 := by
  constructor
  · intro rows totalPv h mnt
    refine ⟨Nat.le_max_right _ 1, ?_, ?_, ?_⟩
    · intro v hv hne
      unfold pageviewsPerMinField
      rw [hv]
      simp [hne]
    · rintro (h0 | h0) <;>
        · unfold pageviewsPerMinField
          rw [h0]
          simp
    · intro h0
      unfold pvPerMin
      rw [h0]
  · decide

/-- Witness for C2 (amended): a nonzero bucket value 5 is preferred; a
bucketless row list falls back to `round(120/60) = 2`. -/
theorem C2_pageviews_per_min_witness :
    pvPerMin [⟨["0"], ["5"]⟩] = some 5
    ∧ pageviewsPerMinField [⟨["0"], ["5"]⟩] (some 120) (minutesElapsed 1 0) = some 5
    ∧ pageviewsPerMinField [⟨["1"], ["9"]⟩] (some 120) (minutesElapsed 1 0) = some 2 := by
  refine ⟨by decide, ?_, ?_⟩
  · exact (C2_pageviews_per_min.1 [⟨["0"], ["5"]⟩] 120 1 0).2.1 5 (by decide) (by decide)
  · exact ((C2_pageviews_per_min.1 [⟨["1"], ["9"]⟩] 120 1 0).2.2.1
      (Or.inl (by decide))).trans (by decide)

/-! ### Cache TTL -/

/-- C4: a `get` before `ttl` seconds have elapsed since the `set` returns
the cached value without invoking the Report Client; once `ttl` seconds
have elapsed the `get` misses and the client is invoked again; a cached
value is never returned past its TTL. -/
theorem C4_cache_ttl :
    ∀ (α : Type) (c : CacheState α) (k : String) (v : α)
      (now0 ttl now1 ttl2 : Nat) (client : Unit → α),
      (now1 < now0 + ttl →
        cachedFetch (cacheSet c k v now0 ttl) k now1 ttl2 client
          = (v, cacheSet c k v now0 ttl, false))
      ∧ (now0 + ttl ≤ now1 →
          (cachedFetch (cacheSet c k v now0 ttl) k now1 ttl2 client).1 = client ()
          ∧ (cachedFetch (cacheSet c k v now0 ttl) k now1 ttl2 client).2.2 = true)
      ∧ (∀ w, cacheGet (cacheSet c k v now0 ttl) k now1 = some w →
          now1 < now0 + ttl ∧ w = v) := by
  intro α c k v now0 ttl now1 ttl2 client
  have hget : cacheGet (cacheSet c k v now0 ttl) k now1
      = if now1 < now0 + ttl then some v else none := by
    unfold cacheGet cacheSet
    rw [List.find?_cons_of_pos _ (by simp)]
  refine ⟨?_, ?_, ?_⟩
  · intro h
    unfold cachedFetch
    rw [hget, if_pos h]
  · intro h
    unfold cachedFetch
    rw [hget, if_neg (by omega)]
    exact ⟨rfl, rfl⟩
  · intro w hw
    rw [hget] at hw
    by_cases h : now1 < now0 + ttl
    · rw [if_pos h] at hw
      exact ⟨h, (Option.some.inj hw).symm⟩
    · rw [if_neg h] at hw
      cases hw

/-- Witness for C4: value 42 cached at time 100 with TTL 10 is served at
time 105 without a client call, and at time 111 the client is invoked. -/
theorem C4_cache_ttl_witness :
    cachedFetch (cacheSet (⟨[]⟩ : CacheState Nat) "rt" 42 100 10) "rt" 105 10
        (fun _ => 7)
      = (42, cacheSet (⟨[]⟩ : CacheState Nat) "rt" 42 100 10, false)
    ∧ (cachedFetch (cacheSet (⟨[]⟩ : CacheState Nat) "rt" 42 100 10) "rt" 111 10
        (fun _ => 7)).1 = 7
    ∧ (cachedFetch (cacheSet (⟨[]⟩ : CacheState Nat) "rt" 42 100 10) "rt" 111 10
        (fun _ => 7)).2.2 = true :=
  ⟨(C4_cache_ttl Nat ⟨[]⟩ "rt" 42 100 10 105 10 (fun _ => 7)).1 (by norm_num),
   ((C4_cache_ttl Nat ⟨[]⟩ "rt" 42 100 10 111 10 (fun _ => 7)).2.1 (by norm_num)).1,
   ((C4_cache_ttl Nat ⟨[]⟩ "rt" 42 100 10 111 10 (fun _ => 7)).2.1 (by norm_num)).2⟩

/-! ### Realtime all-or-nothing -/

/-- C5: the realtime summary response is produced only when all four
jointly awaited queries succeed; if any fails the request yields a single
HTTP 500 carrying one of the failing queries' upstream messages, and no
payload is returned. -/
theorem C5_realtime_all_or_nothing :
    ∀ (q1 q2 q3 q4 : Except String (List GARow)) (h m : Nat),
      ((∃ p, realtimeHandler q1 q2 q3 q4 h m = .ok p) ↔
        (∃ r1 r2 r3 r4, q1 = .ok r1 ∧ q2 = .ok r2 ∧ q3 = .ok r3 ∧ q4 = .ok r4))
      ∧ (∀ st msg, realtimeHandler q1 q2 q3 q4 h m = .error (st, msg) →
          st = 500
          ∧ (q1 = .error msg ∨ q2 = .error msg ∨ q3 = .error msg
              ∨ q4 = .error msg)) := by
  intro q1 q2 q3 q4 h m
  cases q1 <;> cases q2 <;> cases q3 <;> cases q4 <;>
    simp [realtimeHandler, joinAll4]

/-- Witness for C5: four successes produce a payload; a single failing
query turns the whole request into a 500 with its message. -/
theorem C5_realtime_all_or_nothing_witness :
    (∃ p, realtimeHandler (.ok []) (.ok []) (.ok []) (.ok []) 1 0 = .ok p)
    ∧ ((.error "boom" : Except String (List GARow)) = .error "boom"
        ∨ (.ok [] : Except String (List GARow)) = .error "boom"
        ∨ (.ok [] : Except String (List GARow)) = .error "boom"
        ∨ (.ok [] : Except String (List GARow)) = .error "boom") := by
  constructor
  · exact (C5_realtime_all_or_nothing (.ok []) (.ok []) (.ok []) (.ok []) 1 0).1.mpr
      ⟨[], [], [], [], rfl, rfl, rfl, rfl⟩
  · exact ((C5_realtime_all_or_nothing (.error "boom") (.ok []) (.ok []) (.ok [])
      1 0).2 500 "boom" rfl).2

/-! ### Author-dimension discovery -/

/-- C8: when any custom dimension's name, UI name or description contains
`author`, `writer` or `byline` case-insensitively, the discoverer selects
it and the candidate list is that dimension alone, bypassing every
hardcoded guess; on `[{apiName: "customEvent:byline_test"}]` the candidate
list is exactly `[customEvent:byline_test]`. -/
theorem C8_author_discovery :
    (∀ dims : List DimMeta,
      (∃ d ∈ dims, strStartsWith d.apiName "custom" ∧ isAuthorDim d = true) →
      ∃ a, discoverAuthorDim dims = some a ∧ dimsToTry dims = [a])
    ∧ dimsToTry [⟨"customEvent:byline_test", none, none⟩]
        = ["customEvent:byline_test"] := by
  constructor
  · rintro dims ⟨d, hd, hpre, hauth⟩
    have hmem : d ∈ customDims dims := by
      unfold customDims
      rw [List.mem_filter]
      exact ⟨hd, decide_eq_true hpre⟩
    have hsome : ((customDims dims).find? isAuthorDim).isSome :=
      List.find?_isSome.mpr ⟨d, hmem, hauth⟩
    rcases Option.isSome_iff_exists.mp hsome with ⟨e, he⟩
    have hdisc : discoverAuthorDim dims = some e.apiName := by
      unfold discoverAuthorDim
      rw [he]
      rfl
    refine ⟨e.apiName, hdisc, ?_⟩
    unfold dimsToTry
    rw [hdisc]
  · decide

/-- Witness for C8 at the spec's concrete metadata list. -/
theorem C8_author_discovery_witness :
    ∃ a, discoverAuthorDim [⟨"customEvent:byline_test", none, none⟩] = some a
      ∧ dimsToTry [⟨"customEvent:byline_test", none, none⟩] = [a] :=
  C8_author_discovery.1 _
    ⟨⟨"customEvent:byline_test", none, none⟩, by decide, by decide, by decide⟩

/-! ### Top-authors shaping and candidate loop -/

theorem shapeAuthors_length_le (rows : List GARow) :
    (shapeAuthors rows).length ≤ 6 := by
  unfold shapeAuthors
  rw [List.length_map, List.enum_length]
  exact List.length_take_le _ _

theorem shapeAuthors_no_placeholder (rows : List GARow) (e : AuthorEntry)
    (he : e ∈ shapeAuthors rows) :
    e.name ≠ "" ∧ e.name ≠ "(not set)" ∧ e.name ≠ "(not provided)"
      ∧ jsTrim e.name ≠ "" := by
  unfold shapeAuthors at he
  rcases List.mem_map.mp he with ⟨⟨i, r⟩, hmem, rfl⟩
  have hr : r ∈ (rows.filter authorKeep).take 6 :=
    List.getElem?_mem (List.mem_enum_iff_getElem?.mp hmem)
  have hk : authorKeep r = true :=
    (List.mem_filter.mp (List.mem_of_mem_take hr)).2
  unfold authorKeep at hk
  simp only [Bool.and_eq_true, bne_iff_ne, ne_eq] at hk
  exact ⟨hk.1.1.1, hk.1.1.2, hk.1.2, hk.2⟩

theorem candidateRows_length_le (fetch : String → Except String (List GARow))
    (d : String) : (candidateRows fetch d).length ≤ 6 := by
  unfold candidateRows
  cases fetch d with
  | ok rs => exact shapeAuthors_length_le rs
  | error _ => simp

theorem candidateRows_no_placeholder (fetch : String → Except String (List GARow))
    (d : String) (e : AuthorEntry) (he : e ∈ candidateRows fetch d) :
    e.name ≠ "" ∧ e.name ≠ "(not set)" ∧ e.name ≠ "(not provided)"
      ∧ jsTrim e.name ≠ "" := by
  unfold candidateRows at he
  cases hf : fetch d with
  | ok rs =>
      rw [hf] at he
      exact shapeAuthors_no_placeholder rs e he
  | error msg =>
      rw [hf] at he
      cases he

theorem topAuthorsLoop_first_nonempty
    (fetch : String → Except String (List GARow)) :
    ∀ dims : List String,
      topAuthorsLoop fetch dims
        = ((dims.map (candidateRows fetch)).find? (fun l => !l.isEmpty)).getD [] := by
  intro dims
  induction dims with
  | nil => rfl
  | cons d ds ih =>
      by_cases he : (candidateRows fetch d).isEmpty
      · rw [show topAuthorsLoop fetch (d :: ds) = topAuthorsLoop fetch ds by
          simp [topAuthorsLoop, he]]
        rw [ih, List.map_cons, List.find?_cons_of_neg _ (by simp [he])]
      · rw [show topAuthorsLoop fetch (d :: ds) = candidateRows fetch d by
          simp [topAuthorsLoop, he]]
        rw [List.map_cons, List.find?_cons_of_pos _ (by simp [he])]
        rfl

theorem topAuthorsLoop_cases (fetch : String → Except String (List GARow)) :
    ∀ dims : List String,
      topAuthorsLoop fetch dims = []
      ∨ ∃ d ∈ dims, topAuthorsLoop fetch dims = candidateRows fetch d := by
  intro dims
  induction dims with
  | nil => exact Or.inl rfl
  | cons d ds ih =>
      by_cases he : (candidateRows fetch d).isEmpty
      · rw [show topAuthorsLoop fetch (d :: ds) = topAuthorsLoop fetch ds by
          simp [topAuthorsLoop, he]]
        rcases ih with h | ⟨d', hd', h⟩
        · exact Or.inl h
        · exact Or.inr ⟨d', List.mem_cons_of_mem _ hd', h⟩
      · refine Or.inr ⟨d, List.mem_cons_self d ds, ?_⟩
        simp [topAuthorsLoop, he]

/-- C3: the top-authors endpoint filters placeholder author values,
returns at most 6 entries, stops at the first candidate dimension whose
query yields rows, and always answers with a success status — an empty
list when every candidate fails or yields nothing, never an error. -/
theorem C3_top_authors :
    ∀ (fetch : String → Except String (List GARow)) (dims : List String),
      topAuthorsEndpoint fetch dims = .ok (topAuthorsLoop fetch dims)
      ∧ (topAuthorsLoop fetch dims).length ≤ 6
      ∧ (∀ e ∈ topAuthorsLoop fetch dims,
          e.name ≠ "" ∧ e.name ≠ "(not set)" ∧ e.name ≠ "(not provided)"
            ∧ jsTrim e.name ≠ "")
      ∧ topAuthorsLoop fetch dims
          = ((dims.map (candidateRows fetch)).find? (fun l => !l.isEmpty)).getD [] := by
  intro fetch dims
  refine ⟨rfl, ?_, ?_, topAuthorsLoop_first_nonempty fetch dims⟩
  · rcases topAuthorsLoop_cases fetch dims with h | ⟨d, _, h⟩
    · rw [h]; simp
    · rw [h]; exact candidateRows_length_le fetch d
  · intro e he
    rcases topAuthorsLoop_cases fetch dims with h | ⟨d, _, h⟩
    · rw [h] at he; cases he
    · rw [h] at he; exact candidateRows_no_placeholder fetch d e he

/-- Witness for C3: a fetch function succeeding only on the first
candidate, whose rows contain one placeholder; only the real author
survives, ranked 1. -/
theorem C3_top_authors_witness :
    ("Alice" : String) ≠ ""
    ∧ ("Alice" : String) ≠ "(not set)"
    ∧ ("Alice" : String) ≠ "(not provided)"
    ∧ jsTrim "Alice" ≠ "" := by
  have h := C3_top_authors
    (fun d => if d = "customUser:author"
      then Except.ok [⟨["Alice"], ["10", "3"]⟩, ⟨["(not set)"], ["5", "2"]⟩]
      else Except.error "no dim")
    ["customUser:author", "customEvent:author"]
  exact h.2.2.1 ⟨1, "Alice", some 10, some 3⟩ (by decide)

end NewsAnalytics
